import Mathlib

/-!
# librazer: the device access interface (`librazer/librazer.h`)

A shallow embedding of the public interface of librazer.

* The enumerations, the size constant and the data fields of the two structures
  are transcribed from `librazer.h`.
* The header only declares the device methods (function pointers filled in by a
  per-family backend that lives in other files).  Their behaviour is modelled
  from the interface specification; each such definition says so in its doc
  comment.
-/

namespace Razer

/-! ## Constants and enumerations (from `librazer.h`) -/

/-- `#define RAZER_IDSTR_MAX_SIZE 128` -/
def RAZER_IDSTR_MAX_SIZE : Nat := 128

/-- `enum razer_led_state` - The LED state value. -/
inductive razer_led_state where
  | RAZER_LED_OFF
  | RAZER_LED_ON
  | RAZER_LED_UNKNOWN
  deriving DecidableEq, Repr

/-- `enum razer_mouse_freq` - Mouse scan frequency. -/
inductive razer_mouse_freq where
  | RAZER_MOUSE_FREQ_UNKNOWN
  | RAZER_MOUSE_FREQ_125HZ
  | RAZER_MOUSE_FREQ_500HZ
  | RAZER_MOUSE_FREQ_1000HZ
  deriving DecidableEq, Repr

/-- `enum razer_mouse_res` - Mouse scan resolutions. -/
inductive razer_mouse_res where
  | RAZER_MOUSE_RES_UNKNOWN
  | RAZER_MOUSE_RES_400DPI
  | RAZER_MOUSE_RES_450DPI
  | RAZER_MOUSE_RES_900DPI
  | RAZER_MOUSE_RES_1600DPI
  | RAZER_MOUSE_RES_1800DPI
  deriving DecidableEq, Repr

/-- `enum razer_mouse_type`. -/
inductive razer_mouse_type where
  | RAZER_MOUSETYPE_DEATHADDER
  | RAZER_MOUSETYPE_KRAIT
  | RAZER_MOUSETYPE_LACHESIS
  deriving DecidableEq, Repr

open razer_led_state razer_mouse_freq razer_mouse_res razer_mouse_type

/-- Numeric value of a `razer_led_state` enumerant.  `RAZER_LED_OFF = 0` and
`RAZER_LED_ON = 1` are explicit in the header; `RAZER_LED_UNKNOWN` has no
initialiser, so C gives it the previous enumerant's value plus one. -/
def razer_led_state.val : razer_led_state → Int
  | RAZER_LED_OFF => 0
  | RAZER_LED_ON => 1
  | RAZER_LED_UNKNOWN => 1 + 1

/-- Numeric value of a `razer_mouse_freq` enumerant (all explicit in the header). -/
def razer_mouse_freq.val : razer_mouse_freq → Int
  | RAZER_MOUSE_FREQ_UNKNOWN => 0
  | RAZER_MOUSE_FREQ_125HZ => 125
  | RAZER_MOUSE_FREQ_500HZ => 500
  | RAZER_MOUSE_FREQ_1000HZ => 1000

/-- Numeric value of a `razer_mouse_res` enumerant (all explicit in the header). -/
def razer_mouse_res.val : razer_mouse_res → Int
  | RAZER_MOUSE_RES_UNKNOWN => 0
  | RAZER_MOUSE_RES_400DPI => 400
  | RAZER_MOUSE_RES_450DPI => 450
  | RAZER_MOUSE_RES_900DPI => 900
  | RAZER_MOUSE_RES_1600DPI => 1600
  | RAZER_MOUSE_RES_1800DPI => 1800

/-- Numeric value of a `razer_mouse_type` enumerant.  The header gives no
initialisers: the first enumerant is 0 and each next one is the previous plus one. -/
def razer_mouse_type.val : razer_mouse_type → Int
  | RAZER_MOUSETYPE_DEATHADDER => 0
  | RAZER_MOUSETYPE_KRAIT => 0 + 1
  | RAZER_MOUSETYPE_LACHESIS => 0 + 1 + 1

/-- The enumerants of `razer_led_state`, in declaration order. -/
def razer_led_state.all : List razer_led_state :=
  [RAZER_LED_OFF, RAZER_LED_ON, RAZER_LED_UNKNOWN]

/-- The enumerants of `razer_mouse_freq`, in declaration order. -/
def razer_mouse_freq.all : List razer_mouse_freq :=
  [RAZER_MOUSE_FREQ_UNKNOWN, RAZER_MOUSE_FREQ_125HZ, RAZER_MOUSE_FREQ_500HZ,
   RAZER_MOUSE_FREQ_1000HZ]

/-- The enumerants of `razer_mouse_res`, in declaration order. -/
def razer_mouse_res.all : List razer_mouse_res :=
  [RAZER_MOUSE_RES_UNKNOWN, RAZER_MOUSE_RES_400DPI, RAZER_MOUSE_RES_450DPI,
   RAZER_MOUSE_RES_900DPI, RAZER_MOUSE_RES_1600DPI, RAZER_MOUSE_RES_1800DPI]

/-- The enumerants of `razer_mouse_type`, in declaration order. -/
def razer_mouse_type.all : List razer_mouse_type :=
  [RAZER_MOUSETYPE_DEATHADDER, RAZER_MOUSETYPE_KRAIT, RAZER_MOUSETYPE_LACHESIS]

/-- The rating, in Hz, that the doc comment above `enum razer_mouse_freq` gives
for each enumerant:
`@RAZER_MOUSE_FREQ_UNKNOWN: Unknown scan frequency` (no rating),
`@RAZER_MOUSE_FREQ_125HZ: 100Hz scan frequency`,
`@RAZER_MOUSE_FREQ_500HZ: 500Hz scan frequency`,
`@RAZER_MOUSE_FREQ_1000HZ: 1000Hz scan frequency`. -/
def razer_mouse_freq.documented_rating : razer_mouse_freq → Option Int
  | RAZER_MOUSE_FREQ_UNKNOWN => none
  | RAZER_MOUSE_FREQ_125HZ => some 100
  | RAZER_MOUSE_FREQ_500HZ => some 500
  | RAZER_MOUSE_FREQ_1000HZ => some 1000

/-! ## Structures (data fields from `librazer.h`) -/

/-- A C `char`, one byte. -/
abbrev char := Fin 256

/-- The content of a `char` buffer read as a C string: the bytes before the
first NUL. -/
def cstr (buf : List char) : List char :=
  buf.takeWhile (fun c => c ≠ 0)

/-- Modelled from the spec: the header declares no error codes (methods return
"a negative error code"); this is the error taxonomy of the interface
specification: transport unavailable, device busy or unreachable, protocol
violation, invalid argument. -/
inductive razer_error where
  | transport_unavailable
  | device_busy_or_unreachable
  | protocol_violation
  | invalid_argument
  deriving DecidableEq, Repr

/-- Modelled from the spec: the outcome of the one transport call a device
operation makes (the transport is an external collaborator, absent from the
header): it goes through, or fails with an error the operation reports. -/
inductive transport where
  | ok
  | failed (e : razer_error)
  deriving DecidableEq, Repr

/-- Modelled from the spec: the family-specific state behind the header's
`void *internal` pointer (its layout is private to the backends): the claim
state, the capability lists this device accepts, and the values the device
currently reports. -/
structure backend_state where
  claimed : Bool
  freqs : List razer_mouse_freq
  resolutions : List razer_mouse_res
  cur_freq : razer_mouse_freq
  cur_res : razer_mouse_res
  deriving DecidableEq, Repr

/-- `struct razer_mouse` - Representation of a mouse device.
`idstr` is `char idstr[RAZER_IDSTR_MAX_SIZE]`: an array of exactly that many
bytes.  The `next` link is left to the list that holds the devices and the
method pointers are the functions below. -/
structure razer_mouse where
  idstr : List char
  idstr_size : idstr.length = RAZER_IDSTR_MAX_SIZE
  type : razer_mouse_type
  internal : backend_state

/-- `struct razer_led` - A LED on a razer device.  The parent pointer `u.mouse`
is passed explicitly to `toggle_state`. -/
structure razer_led where
  name : String
  id : Nat
  state : razer_led_state
  deriving DecidableEq, Repr

/-- The device with its backend state replaced (every other field kept). -/
def razer_mouse.with_internal (m : razer_mouse) (s : backend_state) : razer_mouse :=
  { idstr := m.idstr, idstr_size := m.idstr_size, type := m.type, internal := s }

/-! ## Device methods (declared in `librazer.h`, behaviour from the specification) -/

/-- Modelled from the spec: the `claim` method (the header only declares the
pointer).  It fails if the device is already claimed or if the transport cannot
be opened; a failed claim leaves the device as it was; on success the device is
claimed. -/
def claim (m : razer_mouse) (t : transport) : Except razer_error Unit × razer_mouse :=
  if m.internal.claimed then
    (.error .device_busy_or_unreachable, m)
  else
    match t with
    | .failed e => (.error e, m)
    | .ok => (.ok (), m.with_internal { m.internal with claimed := true })

/-- Modelled from the spec: the `release` method (absent from the header's
source).  It relinquishes control unconditionally; on an unclaimed device it
changes nothing. -/
def release (m : razer_mouse) : razer_mouse :=
  m.with_internal { m.internal with claimed := false }

/-- Modelled from the spec: the `supported_freqs` method (only declared in the
header).  It needs an active claim and a working transport, and then yields the
list of frequencies this device accepts; the array size the C method returns is
the length of the list. -/
def supported_freqs (m : razer_mouse) (t : transport) :
    Except razer_error (List razer_mouse_freq) :=
  if m.internal.claimed then
    match t with
    | .failed e => .error e
    | .ok => .ok m.internal.freqs
  else
    .error .device_busy_or_unreachable

/-- Modelled from the spec: the `supported_resolutions` method (only declared in
the header); as `supported_freqs`, for resolutions. -/
def supported_resolutions (m : razer_mouse) (t : transport) :
    Except razer_error (List razer_mouse_res) :=
  if m.internal.claimed then
    match t with
    | .failed e => .error e
    | .ok => .ok m.internal.resolutions
  else
    .error .device_busy_or_unreachable

/-- Modelled from the spec: the `get_freq` method (only declared in the header).
It returns the value the device currently reports.  The return type has no error
code, so on an unclaimed device, where the query is not valid, the unknown
sentinel is all it can report. -/
def get_freq (m : razer_mouse) : razer_mouse_freq :=
  if m.internal.claimed then m.internal.cur_freq else RAZER_MOUSE_FREQ_UNKNOWN

/-- Modelled from the spec: the `get_resolution` method (only declared in the
header); as `get_freq`, for the resolution. -/
def get_resolution (m : razer_mouse) : razer_mouse_res :=
  if m.internal.claimed then m.internal.cur_res else RAZER_MOUSE_RES_UNKNOWN

/-- Modelled from the spec: the `set_freq` method (only declared in the header).
It needs an active claim; it fails with invalid-argument if the value is not in
the device's supported list; it fails if the transport call fails; a failed call
leaves the device unchanged; on success the device adopts the value at once. -/
def set_freq (m : razer_mouse) (freq : razer_mouse_freq) (t : transport) :
    Except razer_error Unit × razer_mouse :=
  if m.internal.claimed then
    if freq ∈ m.internal.freqs then
      match t with
      | .failed e => (.error e, m)
      | .ok => (.ok (), m.with_internal { m.internal with cur_freq := freq })
    else
      (.error .invalid_argument, m)
  else
    (.error .device_busy_or_unreachable, m)

/-- Modelled from the spec: the `set_resolution` method (only declared in the
header); as `set_freq`, for the resolution. -/
def set_resolution (m : razer_mouse) (res : razer_mouse_res) (t : transport) :
    Except razer_error Unit × razer_mouse :=
  if m.internal.claimed then
    if res ∈ m.internal.resolutions then
      match t with
      | .failed e => (.error e, m)
      | .ok => (.ok (), m.with_internal { m.internal with cur_res := res })
    else
      (.error .invalid_argument, m)
  else
    (.error .device_busy_or_unreachable, m)

/-- Modelled from the spec: the `toggle_state` method of a LED (the header only
declares the pointer and documents that a new state of `RAZER_LED_UNKNOWN`
results in an error).  `parent` is the device `led->u.mouse` points to.  It
fails if the target state is unknown, if the parent is not claimed, or if the
transport call fails; success stores the new state in the `state` field. -/
def toggle_state (parent : razer_mouse) (led : razer_led) (new_state : razer_led_state)
    (t : transport) : Except razer_error Unit × razer_led :=
  if new_state = RAZER_LED_UNKNOWN then
    (.error .invalid_argument, led)
  else if parent.internal.claimed then
    match t with
    | .failed e => (.error e, led)
    | .ok => (.ok (), { led with state := new_state })
  else
    (.error .device_busy_or_unreachable, led)

/-! ## Runs of state-changing operations -/

/-- One state-changing call on a device, with the outcome of its transport call. -/
inductive mouse_op where
  | claim (t : transport)
  | release
  | set_freq (freq : razer_mouse_freq) (t : transport)
  | set_resolution (res : razer_mouse_res) (t : transport)
  deriving DecidableEq, Repr

/-- A device together with the number of claims that are active on it: the
count goes up with every claim call that succeeds and down with every release
of a claimed device. -/
structure tracked where
  dev : razer_mouse
  active : Nat

/-- Perform one call, keeping count of the active claims. -/
def step (s : tracked) : mouse_op → tracked
  | .claim t =>
    match (claim s.dev t).1 with
    | .ok _ => { dev := (claim s.dev t).2, active := s.active + 1 }
    | .error _ => { dev := (claim s.dev t).2, active := s.active }
  | .release =>
    { dev := release s.dev,
      active := if s.dev.internal.claimed then s.active - 1 else s.active }
  | .set_freq f t => { dev := (set_freq s.dev f t).2, active := s.active }
  | .set_resolution r t => { dev := (set_resolution s.dev r t).2, active := s.active }

/-- Perform a sequence of calls, first to last. -/
def run (s : tracked) (ops : List mouse_op) : tracked :=
  ops.foldl step s

/-- A freshly discovered device: nobody holds a claim on it. -/
def fresh (m : razer_mouse) : tracked :=
  { dev := m.with_internal { m.internal with claimed := false }, active := 0 }

/-- The count of active claims agrees with the claim flag of the device. -/
def claims_consistent (s : tracked) : Prop :=
  s.active = if s.dev.internal.claimed then 1 else 0

/-! ## Concrete devices used as test inputs -/

/-- An identity buffer holding the given bytes, padded with NULs to
`RAZER_IDSTR_MAX_SIZE` (bytes beyond the buffer are cut off). -/
def idstr_of (bytes : List char) : List char :=
  (bytes ++ List.replicate RAZER_IDSTR_MAX_SIZE 0).take RAZER_IDSTR_MAX_SIZE

/-- A claimed mouse named "M1" that accepts the three frequencies and the five
resolutions, currently at 125Hz and 400DPI. -/
def mouse_M1 : razer_mouse :=
  { idstr := idstr_of [77, 49]
    idstr_size := by simp [idstr_of, RAZER_IDSTR_MAX_SIZE]
    type := RAZER_MOUSETYPE_DEATHADDER
    internal :=
      { claimed := true
        freqs := [RAZER_MOUSE_FREQ_125HZ, RAZER_MOUSE_FREQ_500HZ, RAZER_MOUSE_FREQ_1000HZ]
        resolutions := [RAZER_MOUSE_RES_400DPI, RAZER_MOUSE_RES_450DPI, RAZER_MOUSE_RES_900DPI,
                        RAZER_MOUSE_RES_1600DPI, RAZER_MOUSE_RES_1800DPI]
        cur_freq := RAZER_MOUSE_FREQ_125HZ
        cur_res := RAZER_MOUSE_RES_400DPI } }

/-- The scroll wheel LED of `mouse_M1`, in an unknown state. -/
def led_scroll : razer_led :=
  { name := "Scrollwheel", id := 0, state := RAZER_LED_UNKNOWN }

/-! ## The enumerations -/

/-- C5: every named (non-sentinel) enumerant of `razer_mouse_freq` and of
`razer_mouse_res` has as numeric value the rating in its name: 125, 500 and
1000 for the frequencies, 400, 450, 900, 1600 and 1800 for the resolutions. -/
theorem enumerant_value_is_rating :
    RAZER_MOUSE_FREQ_125HZ.val = 125 ∧
    RAZER_MOUSE_FREQ_500HZ.val = 500 ∧
    RAZER_MOUSE_FREQ_1000HZ.val = 1000 ∧
    RAZER_MOUSE_RES_400DPI.val = 400 ∧
    RAZER_MOUSE_RES_450DPI.val = 450 ∧
    RAZER_MOUSE_RES_900DPI.val = 900 ∧
    RAZER_MOUSE_RES_1600DPI.val = 1600 ∧
    RAZER_MOUSE_RES_1800DPI.val = 1800 := by
  refine ⟨rfl, rfl, rfl, rfl, rfl, rfl, rfl, rfl⟩

/-- C6, as stated, fails: the unknown sentinel of `razer_led_state` has numeric
value 2, not zero (zero is `RAZER_LED_OFF`). -/
theorem led_unknown_sentinel_not_zero :
    RAZER_LED_UNKNOWN.val = 2 ∧ RAZER_LED_UNKNOWN.val ≠ 0 ∧ RAZER_LED_OFF.val = 0 := by
  decide

/-- C6, amended: the unknown sentinels of `razer_mouse_freq` and of
`razer_mouse_res` have numeric value zero, and in each of the two enumerations
the sentinel is the only enumerant with that value; the unknown sentinel of
`razer_led_state` has value 2. -/
theorem unknown_sentinel_values :
    RAZER_MOUSE_FREQ_UNKNOWN.val = 0 ∧
    RAZER_MOUSE_RES_UNKNOWN.val = 0 ∧
    (∀ f : razer_mouse_freq, f.val = 0 ↔ f = RAZER_MOUSE_FREQ_UNKNOWN) ∧
    (∀ r : razer_mouse_res, r.val = 0 ↔ r = RAZER_MOUSE_RES_UNKNOWN) ∧
    RAZER_LED_UNKNOWN.val = 2 := by
  refine ⟨rfl, rfl, ?_, ?_, rfl⟩ <;> intro x <;> cases x <;> decide

/-- C7: the values of the non-sentinel `razer_mouse_res` enumerants, in
declaration order, are exactly 400, 450, 900, 1600, 1800 (the `all` list misses
no enumerant and the sentinel is the only one left out); 2400 is the value of no
enumerant, so no list of resolutions holds an element of value 2400. -/
theorem resolution_enumeration_closed :
    ((razer_mouse_res.all.filter (fun r => r ≠ RAZER_MOUSE_RES_UNKNOWN)).map
        razer_mouse_res.val = [400, 450, 900, 1600, 1800]) ∧
    (∀ r : razer_mouse_res, r ∈ razer_mouse_res.all) ∧
    (∀ r : razer_mouse_res, r ≠ RAZER_MOUSE_RES_UNKNOWN ↔
        r.val ∈ ([400, 450, 900, 1600, 1800] : List Int)) ∧
    (∀ r : razer_mouse_res, r.val ≠ 2400) ∧
    (∀ l : List razer_mouse_res, (2400 : Int) ∉ l.map razer_mouse_res.val) := by
  have h2400 : ∀ r : razer_mouse_res, r.val ≠ 2400 := by
    intro r; cases r <;> decide
  refine ⟨by decide, ?_, ?_, h2400, ?_⟩
  · intro r; cases r <;> decide
  · intro r; cases r <;> decide
  · intro l hmem
    obtain ⟨r, _, hr⟩ := List.mem_map.mp hmem
    exact h2400 r hr

/-- C8: the header documents `RAZER_MOUSE_FREQ_125HZ` as a 100Hz scan frequency
while its numeric value is 125, so the documented rating and the value differ
for this enumerant; for the two other rated enumerants they agree. -/
theorem freq_125hz_documented_as_100hz :
    RAZER_MOUSE_FREQ_125HZ.documented_rating = some 100 ∧
    RAZER_MOUSE_FREQ_125HZ.val = 125 ∧
    RAZER_MOUSE_FREQ_125HZ.documented_rating ≠ some RAZER_MOUSE_FREQ_125HZ.val ∧
    RAZER_MOUSE_FREQ_500HZ.documented_rating = some RAZER_MOUSE_FREQ_500HZ.val ∧
    RAZER_MOUSE_FREQ_1000HZ.documented_rating = some RAZER_MOUSE_FREQ_1000HZ.val := by
  decide

/-- C10: in each of the four enumerations the map from enumerant to numeric
value is injective; the LED states are OFF = 0, ON = 1, UNKNOWN = 2 and the
mouse types DEATHADDER = 0, KRAIT = 1, LACHESIS = 2. -/
theorem enumerant_values_injective :
    Function.Injective razer_led_state.val ∧
    Function.Injective razer_mouse_freq.val ∧
    Function.Injective razer_mouse_res.val ∧
    Function.Injective razer_mouse_type.val ∧
    razer_led_state.all.map razer_led_state.val = [0, 1, 2] ∧
    razer_mouse_type.all.map razer_mouse_type.val = [0, 1, 2] ∧
    (∀ s : razer_led_state, s ∈ razer_led_state.all) ∧
    (∀ ty : razer_mouse_type, ty ∈ razer_mouse_type.all) := by
  refine ⟨?_, ?_, ?_, ?_, by decide, by decide, ?_, ?_⟩
  · intro a b h; cases a <;> cases b <;> first | rfl | exact absurd h (by decide)
  · intro a b h; cases a <;> cases b <;> first | rfl | exact absurd h (by decide)
  · intro a b h; cases a <;> cases b <;> first | rfl | exact absurd h (by decide)
  · intro a b h; cases a <;> cases b <;> first | rfl | exact absurd h (by decide)
  · intro s; cases s <;> decide
  · intro ty; cases ty <;> decide

/-! ## The identity string -/

/-- The C string held by a buffer has no NUL byte. -/
theorem cstr_nul_free (buf : List char) : ∀ c ∈ cstr buf, c ≠ 0 := by
  intro c hc
  have h := List.mem_takeWhile_imp hc
  simpa using h

/-- In a buffer that holds a NUL byte, the C string is strictly shorter than
the buffer. -/
theorem cstr_length_lt (buf : List char) (h : (0 : char) ∈ buf) :
    (cstr buf).length < buf.length := by
  induction buf with
  | nil => simp at h
  | cons a rest ih =>
    by_cases ha : a = 0
    · simp [cstr, List.takeWhile, ha]
    · have hrest : (0 : char) ∈ rest := by
        rcases List.mem_cons.mp h with h0 | h0
        · exact absurd h0.symm ha
        · exact h0
      have hlt := ih hrest
      simp [cstr] at hlt
      simp [cstr, List.takeWhile, ha]
      exact hlt

/-- C9: the `idstr` buffer of every mouse has exactly `RAZER_IDSTR_MAX_SIZE` =
128 bytes; when it is NUL-terminated (it holds a NUL byte), the identity string
in it has at most 127 characters, and none of them is NUL. -/
theorem idstr_bounded (m : razer_mouse) (hnul : (0 : char) ∈ m.idstr) :
    RAZER_IDSTR_MAX_SIZE = 128 ∧
    m.idstr.length = 128 ∧
    (cstr m.idstr).length ≤ 127 ∧
    (∀ c ∈ cstr m.idstr, c ≠ 0) := by
  have hlen : m.idstr.length = 128 := m.idstr_size
  have hlt := cstr_length_lt m.idstr hnul
  refine ⟨rfl, hlen, by omega, cstr_nul_free m.idstr⟩

/-- C9 at the device `mouse_M1`, whose buffer holds "M1" and then NULs. -/
theorem idstr_bounded_witness :
    (0 : char) ∈ mouse_M1.idstr ∧
    mouse_M1.idstr.length = 128 ∧
    (cstr mouse_M1.idstr).length ≤ 127 ∧
    (∀ c ∈ cstr mouse_M1.idstr, c ≠ 0) :=
  have h : (0 : char) ∈ mouse_M1.idstr := by decide
  ⟨h, (idstr_bounded mouse_M1 h).2⟩

/-! ## Capability lists and the set operations -/

/-- No state-changing call alters the capability lists of a device. -/
theorem step_capabilities (s : tracked) (op : mouse_op) :
    (step s op).dev.internal.freqs = s.dev.internal.freqs ∧
    (step s op).dev.internal.resolutions = s.dev.internal.resolutions := by
  cases op with
  | claim t =>
    cases t <;> by_cases hc : s.dev.internal.claimed = true <;>
      simp [step, claim, razer_mouse.with_internal, hc]
  | release => simp [step, release, razer_mouse.with_internal]
  | set_freq f t =>
    simp only [step, set_freq]
    split_ifs <;> cases t <;> simp [razer_mouse.with_internal]
  | set_resolution r t =>
    simp only [step, set_resolution]
    split_ifs <;> cases t <;> simp [razer_mouse.with_internal]

/-- No sequence of state-changing calls alters the capability lists of a device. -/
theorem run_capabilities (ops : List mouse_op) (s : tracked) :
    (run s ops).dev.internal.freqs = s.dev.internal.freqs ∧
    (run s ops).dev.internal.resolutions = s.dev.internal.resolutions := by
  induction ops generalizing s with
  | nil => exact ⟨rfl, rfl⟩
  | cons op rest ih =>
    have h1 := ih (step s op)
    have h2 := step_capabilities s op
    simp only [run, List.foldl_cons] at h1 ⊢
    exact ⟨h1.1.trans h2.1, h1.2.trans h2.2⟩

/-- A frequency query that succeeds returns the device's list of frequencies,
and only a claimed device answers it. -/
theorem supported_freqs_ok (m : razer_mouse) (t : transport) (l : List razer_mouse_freq)
    (h : supported_freqs m t = .ok l) :
    l = m.internal.freqs ∧ m.internal.claimed = true := by
  unfold supported_freqs at h
  split_ifs at h with hc
  cases t with
  | ok => simp at h; exact ⟨by simpa using h.symm, hc⟩
  | failed e => simp at h

/-- A resolution query that succeeds returns the device's list of resolutions,
and only a claimed device answers it. -/
theorem supported_resolutions_ok (m : razer_mouse) (t : transport)
    (l : List razer_mouse_res) (h : supported_resolutions m t = .ok l) :
    l = m.internal.resolutions ∧ m.internal.claimed = true := by
  unfold supported_resolutions at h
  split_ifs at h with hc
  cases t with
  | ok => simp at h; exact ⟨by simpa using h.symm, hc⟩
  | failed e => simp at h

/-- When `set_freq` succeeds, the value is in the device's list. -/
theorem set_freq_ok_mem (m : razer_mouse) (v : razer_mouse_freq) (t : transport)
    (h : (set_freq m v t).1 = .ok ()) : v ∈ m.internal.freqs := by
  unfold set_freq at h
  split_ifs at h with hc hv
  exact hv

/-- When `set_resolution` succeeds, the value is in the device's list. -/
theorem set_resolution_ok_mem (m : razer_mouse) (v : razer_mouse_res) (t : transport)
    (h : (set_resolution m v t).1 = .ok ()) : v ∈ m.internal.resolutions := by
  unfold set_resolution at h
  split_ifs at h with hc hv
  exact hv

/-- C1, as stated, fails: `mouse_M1` is claimed and its frequency query returns
125, 500 and 1000 Hz, yet `set_freq` with 500 Hz fails when the transport call
fails (the device was unplugged), and fails on the same device once released;
the same for `set_resolution` with 1600 DPI. -/
theorem set_fails_on_supported_value :
    supported_freqs mouse_M1 .ok =
      .ok [RAZER_MOUSE_FREQ_125HZ, RAZER_MOUSE_FREQ_500HZ, RAZER_MOUSE_FREQ_1000HZ] ∧
    (set_freq mouse_M1 RAZER_MOUSE_FREQ_500HZ (.failed .device_busy_or_unreachable)).1 =
      .error .device_busy_or_unreachable ∧
    ¬ ((set_freq mouse_M1 RAZER_MOUSE_FREQ_500HZ
          (.failed .device_busy_or_unreachable)).1 = .ok () ↔
        RAZER_MOUSE_FREQ_500HZ ∈
          [RAZER_MOUSE_FREQ_125HZ, RAZER_MOUSE_FREQ_500HZ, RAZER_MOUSE_FREQ_1000HZ]) ∧
    (set_freq (release mouse_M1) RAZER_MOUSE_FREQ_500HZ .ok).1 =
      .error .device_busy_or_unreachable ∧
    supported_resolutions mouse_M1 .ok =
      .ok [RAZER_MOUSE_RES_400DPI, RAZER_MOUSE_RES_450DPI, RAZER_MOUSE_RES_900DPI,
           RAZER_MOUSE_RES_1600DPI, RAZER_MOUSE_RES_1800DPI] ∧
    (set_resolution mouse_M1 RAZER_MOUSE_RES_1600DPI
        (.failed .device_busy_or_unreachable)).1 = .error .device_busy_or_unreachable := by
  refine ⟨rfl, rfl, ?_, rfl, rfl, rfl⟩
  intro h
  have hfail : (set_freq mouse_M1 RAZER_MOUSE_FREQ_500HZ
      (.failed .device_busy_or_unreachable)).1 = .error .device_busy_or_unreachable := rfl
  have hok := h.mpr (by decide)
  rw [hfail] at hok
  cases hok

/-- C1, amended: let `lf` and `lr` be the lists a device's `supported_freqs` and
`supported_resolutions` returned, and let any calls of claim, release and the
set operations follow.  Then `set_freq v` succeeds only if `v` is in `lf`, and
while the device is claimed and the transport call goes through it succeeds if
and only if `v` is in `lf`; the same holds for `set_resolution` and `lr`. -/
theorem set_succeeds_iff_supported (m : razer_mouse) (n : Nat) (ops : List mouse_op)
    (tf tr : transport) (lf : List razer_mouse_freq) (lr : List razer_mouse_res)
    (hf : supported_freqs m tf = .ok lf) (hr : supported_resolutions m tr = .ok lr) :
    (∀ v t, (set_freq (run ⟨m, n⟩ ops).dev v t).1 = .ok () → v ∈ lf) ∧
    ((run ⟨m, n⟩ ops).dev.internal.claimed = true →
      ∀ v, (set_freq (run ⟨m, n⟩ ops).dev v .ok).1 = .ok () ↔ v ∈ lf) ∧
    (∀ v t, (set_resolution (run ⟨m, n⟩ ops).dev v t).1 = .ok () → v ∈ lr) ∧
    ((run ⟨m, n⟩ ops).dev.internal.claimed = true →
      ∀ v, (set_resolution (run ⟨m, n⟩ ops).dev v .ok).1 = .ok () ↔ v ∈ lr) := by
  obtain ⟨hlf, _⟩ := supported_freqs_ok m tf lf hf
  obtain ⟨hlr, _⟩ := supported_resolutions_ok m tr lr hr
  obtain ⟨kf, kr⟩ := run_capabilities ops ⟨m, n⟩
  simp only at kf kr
  refine ⟨?_, ?_, ?_, ?_⟩
  · intro v t h
    have := set_freq_ok_mem _ v t h
    rw [kf] at this
    exact hlf ▸ this
  · intro hc v
    constructor
    · intro h
      have := set_freq_ok_mem _ v .ok h
      rw [kf] at this
      exact hlf ▸ this
    · intro hv
      have hv2 : v ∈ (run ⟨m, n⟩ ops).dev.internal.freqs := by rw [kf, ← hlf]; exact hv
      simp [set_freq, hc, hv2]
  · intro v t h
    have := set_resolution_ok_mem _ v t h
    rw [kr] at this
    exact hlr ▸ this
  · intro hc v
    constructor
    · intro h
      have := set_resolution_ok_mem _ v .ok h
      rw [kr] at this
      exact hlr ▸ this
    · intro hv
      have hv2 : v ∈ (run ⟨m, n⟩ ops).dev.internal.resolutions := by
        rw [kr, ← hlr]; exact hv
      simp [set_resolution, hc, hv2]

/-- C1, amended, at `mouse_M1`: after its two queries and a run that sets
1000 Hz, fails to set 900 DPI and sets 1800 DPI, the device is still claimed,
`set_freq` accepts 500 Hz and `set_resolution` accepts 1600 DPI, and
`set_freq` refuses the unknown sentinel, which the list does not hold. -/
theorem set_succeeds_iff_supported_witness :
    (set_freq (run ⟨mouse_M1, 1⟩
        [.set_freq RAZER_MOUSE_FREQ_1000HZ .ok,
         .set_resolution RAZER_MOUSE_RES_900DPI (.failed .protocol_violation),
         .set_resolution RAZER_MOUSE_RES_1800DPI .ok]).dev
      RAZER_MOUSE_FREQ_500HZ .ok).1 = .ok () ∧
    (set_resolution (run ⟨mouse_M1, 1⟩
        [.set_freq RAZER_MOUSE_FREQ_1000HZ .ok,
         .set_resolution RAZER_MOUSE_RES_900DPI (.failed .protocol_violation),
         .set_resolution RAZER_MOUSE_RES_1800DPI .ok]).dev
      RAZER_MOUSE_RES_1600DPI .ok).1 = .ok () ∧
    ¬ (set_freq (run ⟨mouse_M1, 1⟩
        [.set_freq RAZER_MOUSE_FREQ_1000HZ .ok,
         .set_resolution RAZER_MOUSE_RES_900DPI (.failed .protocol_violation),
         .set_resolution RAZER_MOUSE_RES_1800DPI .ok]).dev
      RAZER_MOUSE_FREQ_UNKNOWN .ok).1 = .ok () :=
  have h := set_succeeds_iff_supported mouse_M1 1
    [.set_freq RAZER_MOUSE_FREQ_1000HZ .ok,
     .set_resolution RAZER_MOUSE_RES_900DPI (.failed .protocol_violation),
     .set_resolution RAZER_MOUSE_RES_1800DPI .ok] .ok .ok
    [RAZER_MOUSE_FREQ_125HZ, RAZER_MOUSE_FREQ_500HZ, RAZER_MOUSE_FREQ_1000HZ]
    [RAZER_MOUSE_RES_400DPI, RAZER_MOUSE_RES_450DPI, RAZER_MOUSE_RES_900DPI,
     RAZER_MOUSE_RES_1600DPI, RAZER_MOUSE_RES_1800DPI] rfl rfl
  ⟨(h.2.1 rfl _).mpr (by decide), (h.2.2.2 rfl _).mpr (by decide),
   fun hok => absurd (h.1 _ _ hok) (by decide)⟩

/-- C2: on a claimed device, when `set_freq v` returns success the next
`get_freq` returns `v`, and when it fails `get_freq` returns what it returned
before the call; the same for `set_resolution` and `get_resolution`. -/
theorem set_get_roundtrip (m : razer_mouse) (hc : m.internal.claimed = true)
    (f : razer_mouse_freq) (r : razer_mouse_res) (t : transport) :
    ((set_freq m f t).1 = .ok () → get_freq (set_freq m f t).2 = f) ∧
    ((set_freq m f t).1 ≠ .ok () → get_freq (set_freq m f t).2 = get_freq m) ∧
    ((set_resolution m r t).1 = .ok () → get_resolution (set_resolution m r t).2 = r) ∧
    ((set_resolution m r t).1 ≠ .ok () →
      get_resolution (set_resolution m r t).2 = get_resolution m) := by
  refine ⟨?_, ?_, ?_, ?_⟩
  · intro h
    unfold set_freq at h ⊢
    split_ifs at h ⊢ with hv
    cases t with
    | ok => simp [get_freq, razer_mouse.with_internal, hc]
    | failed e => simp at h
  · intro h
    unfold set_freq at h ⊢
    split_ifs at h ⊢ with hv
    · cases t with
      | ok => simp at h
      | failed e => rfl
    · rfl
  · intro h
    unfold set_resolution at h ⊢
    split_ifs at h ⊢ with hv
    cases t with
    | ok => simp [get_resolution, razer_mouse.with_internal, hc]
    | failed e => simp at h
  · intro h
    unfold set_resolution at h ⊢
    split_ifs at h ⊢ with hv
    · cases t with
      | ok => simp at h
      | failed e => rfl
    · rfl

/-- C2 at `mouse_M1`, which reports 125 Hz and 400 DPI: setting 500 Hz succeeds
and is read back, while setting the resolution to the unknown sentinel, which
the device does not list, fails and 400 DPI is still read back. -/
theorem set_get_roundtrip_witness :
    mouse_M1.internal.claimed = true ∧
    (set_freq mouse_M1 RAZER_MOUSE_FREQ_500HZ .ok).1 = .ok () ∧
    get_freq (set_freq mouse_M1 RAZER_MOUSE_FREQ_500HZ .ok).2 = RAZER_MOUSE_FREQ_500HZ ∧
    (set_resolution mouse_M1 RAZER_MOUSE_RES_UNKNOWN .ok).1 = .error .invalid_argument ∧
    get_resolution (set_resolution mouse_M1 RAZER_MOUSE_RES_UNKNOWN .ok).2 =
      RAZER_MOUSE_RES_400DPI :=
  have h := set_get_roundtrip mouse_M1 rfl RAZER_MOUSE_FREQ_500HZ RAZER_MOUSE_RES_UNKNOWN .ok
  have hfail : (set_resolution mouse_M1 RAZER_MOUSE_RES_UNKNOWN .ok).1 ≠ .ok () :=
    fun hok => Except.noConfusion hok
  ⟨rfl, rfl, h.1 rfl, rfl, h.2.2.2 hfail⟩

/-! ## The claim lifecycle -/

/-- Every state-changing call keeps the count of active claims consistent. -/
theorem step_claims_consistent (s : tracked) (op : mouse_op) (h : claims_consistent s) :
    claims_consistent (step s op) := by
  unfold claims_consistent at h ⊢
  cases op with
  | claim t =>
    cases t <;> by_cases hc : s.dev.internal.claimed = true <;>
      simp [step, claim, razer_mouse.with_internal, hc] at h ⊢ <;> omega
  | release =>
    by_cases hc : s.dev.internal.claimed = true <;>
      simp [step, release, razer_mouse.with_internal, hc] at h ⊢ <;> omega
  | set_freq f t =>
    simp only [step, set_freq]
    split_ifs <;> cases t <;> simp_all [razer_mouse.with_internal]
  | set_resolution r t =>
    simp only [step, set_resolution]
    split_ifs <;> cases t <;> simp_all [razer_mouse.with_internal]

/-- Every sequence of state-changing calls keeps the count of active claims
consistent. -/
theorem run_claims_consistent (ops : List mouse_op) (s : tracked)
    (h : claims_consistent s) : claims_consistent (run s ops) := by
  induction ops generalizing s with
  | nil => exact h
  | cons op rest ih =>
    simp only [run, List.foldl_cons]
    exact ih (step s op) (step_claims_consistent s op h)

/-- C3: at most one claim is active on a device at any time (after any calls on
a freshly discovered device the count of active claims is at most one, and it
is one exactly when the device is claimed); `claim` on a claimed device returns
an error and leaves the device as it was, still claimed; a failed `claim` on an
unclaimed device leaves it unclaimed. -/
theorem claim_exclusive (m : razer_mouse) (t : transport) (ops : List mouse_op) :
    ((run (fresh m) ops).active ≤ 1 ∧
      ((run (fresh m) ops).active = 1 ↔ (run (fresh m) ops).dev.internal.claimed = true)) ∧
    (m.internal.claimed = true →
      (∃ e, (claim m t).1 = .error e) ∧ (claim m t).2 = m ∧
        (claim m t).2.internal.claimed = true) ∧
    (m.internal.claimed = false → (claim m t).1 ≠ .ok () →
      (claim m t).2.internal.claimed = false) := by
  refine ⟨?_, ?_, ?_⟩
  · have h0 : claims_consistent (fresh m) := by
      simp [claims_consistent, fresh, razer_mouse.with_internal]
    have h := run_claims_consistent ops (fresh m) h0
    unfold claims_consistent at h
    by_cases hc : (run (fresh m) ops).dev.internal.claimed = true
    · simp [hc] at h; simp [h, hc]
    · simp [hc] at h; simp [h, hc]
  · intro hc
    simp [claim, hc]
  · intro hc hfail
    cases t with
    | ok => simp [claim, hc] at hfail
    | failed e => simp [claim, hc]

/-- C3 on `mouse_M1`: found fresh and claimed twice in a row, one claim is
active and the device is claimed; a further claim on it is refused; and when
the transport cannot be opened a claim on the fresh device fails and leaves it
unclaimed. -/
theorem claim_exclusive_witness :
    (run (fresh mouse_M1) [.claim .ok, .claim .ok]).active = 1 ∧
    (run (fresh mouse_M1) [.claim .ok, .claim .ok]).dev.internal.claimed = true ∧
    (∃ e, (claim mouse_M1 .ok).1 = .error e) ∧
    (claim (release mouse_M1) (.failed .transport_unavailable)).2.internal.claimed = false :=
  ⟨((claim_exclusive mouse_M1 .ok [.claim .ok, .claim .ok]).1.2).mpr rfl, rfl,
   ((claim_exclusive mouse_M1 .ok []).2.1 rfl).1,
   (claim_exclusive (release mouse_M1) (.failed .transport_unavailable) []).2.2 rfl
     (fun hok => Except.noConfusion hok)⟩

/-! ## LEDs -/

/-- C4: `toggle_state` with `RAZER_LED_UNKNOWN` returns an error and leaves the
LED as it was; a `toggle_state` that succeeds had a target of on or off and
stores it in `state`; so a successful toggle to on followed by a successful
toggle to off leaves the state off, and the reverse order leaves it on.  On a
claimed parent with a working transport both orders do succeed. -/
theorem toggle_state_law (parent : razer_mouse) (led : razer_led) (s : razer_led_state)
    (t t2 : transport) :
    ((∃ e, (toggle_state parent led RAZER_LED_UNKNOWN t).1 = .error e) ∧
      (toggle_state parent led RAZER_LED_UNKNOWN t).2 = led) ∧
    ((toggle_state parent led s t).1 = .ok () →
      (s = RAZER_LED_ON ∨ s = RAZER_LED_OFF) ∧ (toggle_state parent led s t).2.state = s) ∧
    ((toggle_state parent led RAZER_LED_ON t).1 = .ok () →
      (toggle_state parent (toggle_state parent led RAZER_LED_ON t).2 RAZER_LED_OFF t2).1
        = .ok () →
      (toggle_state parent (toggle_state parent led RAZER_LED_ON t).2 RAZER_LED_OFF t2).2.state
        = RAZER_LED_OFF) ∧
    ((toggle_state parent led RAZER_LED_OFF t).1 = .ok () →
      (toggle_state parent (toggle_state parent led RAZER_LED_OFF t).2 RAZER_LED_ON t2).1
        = .ok () →
      (toggle_state parent (toggle_state parent led RAZER_LED_OFF t).2 RAZER_LED_ON t2).2.state
        = RAZER_LED_ON) ∧
    (parent.internal.claimed = true →
      (toggle_state parent led RAZER_LED_ON .ok).1 = .ok () ∧
      (toggle_state parent (toggle_state parent led RAZER_LED_ON .ok).2 RAZER_LED_OFF .ok)
        = (.ok (), { led with state := RAZER_LED_OFF }) ∧
      (toggle_state parent led RAZER_LED_OFF .ok).1 = .ok () ∧
      (toggle_state parent (toggle_state parent led RAZER_LED_OFF .ok).2 RAZER_LED_ON .ok)
        = (.ok (), { led with state := RAZER_LED_ON })) := by
  have hset : ∀ (l : razer_led) (s0 : razer_led_state) (t0 : transport),
      (toggle_state parent l s0 t0).1 = .ok () →
        (s0 = RAZER_LED_ON ∨ s0 = RAZER_LED_OFF) ∧ (toggle_state parent l s0 t0).2.state = s0 := by
    intro l s0 t0 h
    unfold toggle_state at h ⊢
    split_ifs at h ⊢ with h1 h2
    cases t0 with
    | ok => refine ⟨?_, rfl⟩; cases s0 <;> simp at h1 ⊢
    | failed e => simp at h
  refine ⟨⟨⟨.invalid_argument, by simp [toggle_state]⟩, by simp [toggle_state]⟩,
    hset led s t, fun _ h => (hset _ _ _ h).2, fun _ h => (hset _ _ _ h).2, ?_⟩
  intro hc
  simp [toggle_state, hc]

/-- C4 on the scroll wheel LED of the claimed `mouse_M1`: a toggle to unknown
is refused and the LED keeps its state; on then off ends off; off then on ends
on. -/
theorem toggle_state_law_witness :
    (toggle_state mouse_M1 led_scroll RAZER_LED_UNKNOWN .ok).2 = led_scroll ∧
    (toggle_state mouse_M1 (toggle_state mouse_M1 led_scroll RAZER_LED_ON .ok).2
        RAZER_LED_OFF .ok).2.state = RAZER_LED_OFF ∧
    (toggle_state mouse_M1 (toggle_state mouse_M1 led_scroll RAZER_LED_OFF .ok).2
        RAZER_LED_ON .ok).2.state = RAZER_LED_ON :=
  have h := toggle_state_law mouse_M1 led_scroll RAZER_LED_ON .ok .ok
  ⟨h.1.2, h.2.2.1 rfl rfl, h.2.2.2.1 rfl rfl⟩

end Razer
